import Mathlib

/-
Verification of the i.wv2.toar radiometric-conversion module against its
specification.  The module converts WorldView-2 digital counts to
top-of-atmosphere radiance or reflectance.  All floating-point arithmetic of
the source is modelled over the exact fields ℚ and ℝ (the specification
states the formulas with exact numeric semantics); the two truncating
`int(...)` conversions of the Julian-day algorithm are modelled by an
explicit truncation-toward-zero operator on ℚ.
-/

namespace WV2

/-- A timestamp as produced by parsing the fixed textual format
`YYYY-MM-DDTHH:MM:SS.ffffffZ` (source line 90). -/
structure Timestamp where
  year : ℤ
  month : ℤ
  day : ℤ
  hour : ℤ
  minute : ℤ
  second : ℤ
  microsecond : ℤ
deriving DecidableEq

/-- A syntactically valid timestamp: the field ranges that the textual
format `YYYY-MM-DDTHH:MM:SS.ffffffZ` can produce (positive calendar date,
non-negative time-of-day fields). -/
def ValidTimestamp (t : Timestamp) : Prop :=
  1 ≤ t.year ∧ 1 ≤ t.month ∧ t.month ≤ 12 ∧ 1 ≤ t.day ∧
    0 ≤ t.hour ∧ 0 ≤ t.minute ∧ 0 ≤ t.second ∧ 0 ≤ t.microsecond

instance (t : Timestamp) : Decidable (ValidTimestamp t) := by
  unfold ValidTimestamp
  infer_instance

/-- Python's `int(...)` applied to a (non-integral) number: truncation toward
zero (source lines 100-102). -/
def pyInt (q : ℚ) : ℤ := if 0 ≤ q then ⌊q⌋ else -⌊-q⌋

/-- Python's `math.radians`: degrees to radians (source line 105). -/
noncomputable def radians (x : ℝ) : ℝ := x * Real.pi / 180

/-- Source lines 91-95: the month used by the Julian-day algorithm
(January and February become month 13 and 14). -/
def adjMonth (t : Timestamp) : ℤ :=
  if t.month = 1 ∨ t.month = 2 then t.month + 12 else t.month

/-- Source lines 91-96: the year used by the Julian-day algorithm
(January and February belong to the previous year). -/
def adjYear (t : Timestamp) : ℤ :=
  if t.month = 1 ∨ t.month = 2 then t.year - 1 else t.year

/-- Source line 98: seconds including the microsecond fraction. -/
def secondsMicro (t : Timestamp) : ℚ :=
  (t.second : ℚ) + (t.microsecond : ℚ) / 1000000

/-- Source line 99: fractional hour of day. -/
def UT (t : Timestamp) : ℚ :=
  (t.hour : ℚ) + (t.minute : ℚ) / 60 + secondsMicro t / 3600

/-- Source line 100: `A = int(year / 100)` on the adjusted year. -/
def A (t : Timestamp) : ℤ := pyInt ((adjYear t : ℚ) / 100)

/-- Source line 101: `B = 2 - A + int(A / 4)`. -/
def B (t : Timestamp) : ℤ := 2 - A t + pyInt ((A t : ℚ) / 4)

/-- Source lines 102-103: the Julian day.  Both truncating conversions are
applied to the adjusted year and adjusted month, which are the variables in
scope at that line. -/
def JD (t : Timestamp) : ℚ :=
  (pyInt ((365.25 : ℚ) * ((adjYear t : ℚ) + 4716)) : ℚ) +
    (pyInt ((30.6001 : ℚ) * ((adjMonth t : ℚ) + 1)) : ℚ) +
    (t.day : ℚ) + UT t / 24 + (B t : ℚ) - 1524.5

/-- Source line 104: days since J2000.0. -/
def D (t : Timestamp) : ℚ := JD t - 2451545.0

/-- Source line 105: the mean anomaly in radians. -/
noncomputable def g (t : Timestamp) : ℝ := radians (357.529 + 0.98560028 * (D t : ℝ))

/-- Source lines 86-107: the Earth-Sun distance in astronomical units for the
given acquisition timestamp. -/
noncomputable def EarthSunDistance (t : Timestamp) : ℝ :=
  1.00014 - 0.01671 * Real.cos (g t) - 0.00014 * Real.cos (2 * g t)

/-- Truncation agrees with the floor on non-negative arguments. -/
theorem pyInt_eq_floor (q : ℚ) (h : 0 ≤ q) : pyInt q = ⌊q⌋ := by
  simp [pyInt, h]

/-- The adjusted year is non-negative for valid timestamps. -/
theorem adjYear_nonneg (t : Timestamp) (h : 1 ≤ t.year) : 0 ≤ adjYear t := by
  unfold adjYear
  split <;> omega

/-- The adjusted month is at least one for valid timestamps. -/
theorem adjMonth_pos (t : Timestamp) (h : 1 ≤ t.month) : 1 ≤ adjMonth t := by
  unfold adjMonth
  split <;> omega

/-- The list of conversion variables returned by the metadata extractor
(source lines 132-133): absolute calibration factor, solar zenith angle in
degrees (90 minus the mean sun elevation), Earth-Sun distance, band-averaged
solar irradiance, effective bandwidth. -/
structure CalibVars where
  absCalFactor : ℚ
  theta : ℚ
  earthSunDist : ℝ
  eSun : ℚ
  effectiveBandwidth : ℚ

/-- The cosine used by the raster engine's expression evaluator: its argument
is in degrees (the engine's documented trigonometric convention), so it equals
the mathematical cosine of the angle converted to radians. -/
noncomputable def mapcalcCos (x : ℝ) : ℝ := Real.cos (radians x)

/-- The per-pixel transform request issued to the external raster engine: the
name of the output raster and the arithmetic expression applied to each
digital-number pixel value. -/
structure TransformCmd where
  output : String
  inputRast : String
  expr : ℝ → ℝ

/-- Source lines 141-163, `CalculateTOAR`: builds the per-pixel map-algebra
expression.  Radiance mode (line 153) evaluates
`(absCal * DN) / efb`; reflectance mode (line 159) evaluates
`(((absCal * DN) / efb) * esd^2 * pi) / (eSun * cos(theta))` with the
engine's degree-based cosine. -/
noncomputable def CalculateTOAR (v : CalibVars) (raster output : String)
    (radiance : Bool) : TransformCmd :=
  if radiance then
    ⟨output, raster,
      fun dn => ((v.absCalFactor : ℝ) * dn) / (v.effectiveBandwidth : ℝ)⟩
  else
    ⟨output, raster,
      fun dn =>
        ((((v.absCalFactor : ℝ) * dn) / (v.effectiveBandwidth : ℝ)) *
            v.earthSunDist ^ 2 * Real.pi) /
          ((v.eSun : ℝ) * mapcalcCos (v.theta : ℝ))⟩

/-- The parse of the metadata file (source line 112): either the document is
not well-formed markup, or it is a tree.  A tree is modelled by the texts of
its numeric leaf nodes, keyed by path (`none` entry value: node present but
its text does not parse as a number), together with the acquisition-time node
(`none`: node absent; `some none`: text present but not in the expected
timestamp format). -/
inductive XmlParse where
  | malformed : XmlParse
  | tree : List (String × Option ℚ) → Option (Option Timestamp) → XmlParse

/-- The distinguishable causes of an extraction failure. -/
inductive FailKind where
  | parseError : FailKind
  | fieldMissing : FailKind
  | timestampBad : FailKind
  | unknownBand : FailKind
deriving DecidableEq

/-- The outcome of `ExtractVariablesFromMetadata`.  `handledFail` is the
branch taken by the catch-all handler of source lines 135-138 (diagnostic
message followed by exit code 1), tagged with the operation that failed
first; `uncaughtFail` is an exception that escapes the function because it is
raised outside the handler's scope. -/
inductive ExtractResult where
  | ok : CalibVars → ExtractResult
  | handledFail : FailKind → ExtractResult
  | uncaughtFail : FailKind → ExtractResult

/-- `root.find(path).text` followed by the numeric conversion: yields a value
only when the node exists and its text parses (source lines 115-118, 132). -/
def findText (ns : List (String × Option ℚ)) (path : String) : Option ℚ :=
  match ns.lookup path with
  | none => none
  | some none => none
  | some (some v) => some v

/-- Source lines 122-130: the WV-2 band-averaged solar spectral irradiance
table. -/
def SSI : List (String × ℚ) :=
  [("BAND_P", 1580.8140), ("BAND_C", 1758.2229), ("BAND_B", 1974.2416),
   ("BAND_G", 1856.4104), ("BAND_Y", 1738.4791), ("BAND_R", 1559.4555),
   ("BAND_RE", 1342.0695), ("BAND_N", 1069.7302), ("BAND_N2", 861.2866)]

/-- Source lines 110-138, `ExtractVariablesFromMetadata`.  The document parse
(line 112) happens before the `try` block, so a malformed document escapes
the handler.  Inside the `try` (lines 114-133) the band-scoped fields, the
image-scoped fields, the timestamp parse and the irradiance lookup are
evaluated in source order; the first failure reaches the catch-all handler,
which emits one diagnostic and exits with code 1. -/
noncomputable def ExtractVariablesFromMetadata (doc : XmlParse) (band : String) :
    ExtractResult :=
  match doc with
  | XmlParse.malformed => ExtractResult.uncaughtFail FailKind.parseError
  | XmlParse.tree ns acq =>
    match findText ns ("IMD/" ++ band ++ "/ABSCALFACTOR") with
    | none => ExtractResult.handledFail FailKind.fieldMissing
    | some absCal =>
      match findText ns ("IMD/" ++ band ++ "/EFFECTIVEBANDWIDTH") with
      | none => ExtractResult.handledFail FailKind.fieldMissing
      | some efb =>
        match findText ns "IMD/IMAGE/MEANSUNEL" with
        | none => ExtractResult.handledFail FailKind.fieldMissing
        | some sunEl =>
          match acq with
          | none => ExtractResult.handledFail FailKind.fieldMissing
          | some none => ExtractResult.handledFail FailKind.timestampBad
          | some (some ts) =>
            match SSI.lookup band with
            | none => ExtractResult.handledFail FailKind.unknownBand
            | some eSun =>
              ExtractResult.ok
                ⟨absCal, 90 - sunEl, EarthSunDistance ts, eSun, efb⟩

/-- Source lines 202-203 of `main`: the extraction result feeds
`CalculateTOAR`; a transform request is issued only when extraction returns
the variable list.  The band key is passed directly (the band-name resolution
of line 202 is analysed separately). -/
noncomputable def pipeline (doc : XmlParse) (band raster output : String)
    (radiance : Bool) : Option TransformCmd :=
  match ExtractVariablesFromMetadata doc band with
  | ExtractResult.ok v => some (CalculateTOAR v raster output radiance)
  | ExtractResult.handledFail _ => none
  | ExtractResult.uncaughtFail _ => none

/-- Source lines 176-184: the band-option to metadata-band-code table. -/
def band_lookup : List (String × String) :=
  [("Pan", "BAND_P"), ("Coastal", "BAND_C"), ("Blue", "BAND_B"),
   ("Green", "BAND_G"), ("Yellow", "BAND_Y"), ("Red", "BAND_R"),
   ("Red Edge", "BAND_RE"), ("NIR1", "BAND_N"), ("NIR2", "BAND_N2")]

/-- Source lines 186-194: the band-option to sequential-number-code table. -/
def band_num : List (String × String) :=
  [("Pan", "P"), ("Coastal", "1"), ("Blue", "2"), ("Green", "3"),
   ("Yellow", "4"), ("Red", "5"), ("Red Edge", "6"), ("NIR1", "7"),
   ("NIR2", "8")]

/-- Source lines 196-199: the output raster name.  `use_band_names` holds the
value of the `n` flag (whose description reads: use band numbers instead of
letters); when it is set the code takes the code from `band_lookup`, and
otherwise from `band_num`. -/
def outputName (outPre band : String) (use_band_names : Bool) : Option String :=
  if use_band_names then
    (band_lookup.lookup band).map (fun c => outPre ++ "." ++ c)
  else
    (band_num.lookup band).map (fun c => outPre ++ "." ++ c)

/-- The local name environment of `main` restricted to its table bindings:
lines 176 and 186 bind exactly the names `band_lookup` and `band_num`. -/
def mainTableNames : List (String × List (String × String)) :=
  [("band_lookup", band_lookup), ("band_num", band_num)]

/-- The name referenced at the extraction call site, source line 202. -/
def extractionCallTableName : String := "bandLookup"

/-- Spec 4.1 step 2 in the spec's words: `A = floor(year / 100)`, with year
the January/February-adjusted value. -/
def Aspec (t : Timestamp) : ℤ := ⌊(adjYear t : ℚ) / 100⌋

/-- Spec 4.1 step 2 in the spec's words: `B = 2 - A + floor(A / 4)`. -/
def Bspec (t : Timestamp) : ℤ := 2 - Aspec t + ⌊(Aspec t : ℚ) / 4⌋

/-- Spec 4.1 step 3 in the spec's words:
`UT = hour + minute/60 + (second + microsecond/1e6)/3600`. -/
def UTspec (t : Timestamp) : ℚ :=
  (t.hour : ℚ) + (t.minute : ℚ) / 60 +
    ((t.second : ℚ) + (t.microsecond : ℚ) / 1000000) / 3600

/-- Spec 4.1 step 4 in the spec's words, with year and month the
January/February-adjusted values (the amendment to claim C3):
`JD = floor(365.25 * (year + 4716)) + floor(30.6001 * (month + 1)) + day
+ UT/24 + B - 1524.5`. -/
def JDspec (t : Timestamp) : ℚ :=
  (⌊(365.25 : ℚ) * ((adjYear t : ℚ) + 4716)⌋ : ℚ) +
    (⌊(30.6001 : ℚ) * ((adjMonth t : ℚ) + 1)⌋ : ℚ) +
    (t.day : ℚ) + UTspec t / 24 + (Bspec t : ℚ) - 1524.5

/-- Spec 4.1 steps 5-6 in the spec's words, from the spec-side Julian day. -/
noncomputable def gSpec (t : Timestamp) : ℝ :=
  radians (357.529 + 0.98560028 * ((JDspec t - 2451545.0 : ℚ) : ℝ))

/-- Spec 4.1 step 7 in the spec's words:
`1.00014 - 0.01671 * cos(g) - 0.00014 * cos(2g)`. -/
noncomputable def EarthSunDistanceSpec (t : Timestamp) : ℝ :=
  1.00014 - 0.01671 * Real.cos (gSpec t) - 0.00014 * Real.cos (2 * gSpec t)

/-- The Julian day exactly as claim C3 words it, with `year` and `month`
taken directly from the timestamp (no January/February adjustment
anywhere). -/
def JDclaimC3 (t : Timestamp) : ℚ :=
  (⌊(365.25 : ℚ) * ((t.year : ℚ) + 4716)⌋ : ℚ) +
    (⌊(30.6001 : ℚ) * ((t.month : ℚ) + 1)⌋ : ℚ) +
    (t.day : ℚ) + UTspec t / 24 +
    ((2 - ⌊(t.year : ℚ) / 100⌋ + ⌊((⌊(t.year : ℚ) / 100⌋ : ℤ) : ℚ) / 4⌋ : ℤ) : ℚ) -
    1524.5

/-- The returned distance exactly as claim C3 words it, built on
`JDclaimC3`. -/
noncomputable def EarthSunDistanceClaimC3 (t : Timestamp) : ℝ :=
  1.00014 -
    0.01671 *
      Real.cos (radians (357.529 + 0.98560028 * ((JDclaimC3 t - 2451545.0 : ℚ) : ℝ))) -
    0.00014 *
      Real.cos (2 * radians (357.529 + 0.98560028 * ((JDclaimC3 t - 2451545.0 : ℚ) : ℝ)))

/-- The Julian day as claim C4 words it for January/February timestamps: the
adjustment is applied in steps 2-3 only (so `B` uses the adjusted year), and
the remaining steps use the original year and month (so the two truncating
terms use the timestamp's own fields). -/
def JDclaimC4 (t : Timestamp) : ℚ :=
  (pyInt ((365.25 : ℚ) * ((t.year : ℚ) + 4716)) : ℚ) +
    (pyInt ((30.6001 : ℚ) * ((t.month : ℚ) + 1)) : ℚ) +
    (t.day : ℚ) + UT t / 24 + (B t : ℚ) - 1524.5

/-- C2: in radiance mode, for every calibration record and every pixel value
DN, the per-pixel expression equals `(absoluteCalibrationFactor * DN) /
effectiveBandwidth`; with absoluteCalibrationFactor 0.01, effectiveBandwidth
50 and DN 1000 it yields exactly 0.2. -/
theorem c2_radiance_expression (v : CalibVars) (raster out : String) (dn : ℝ) :
    (CalculateTOAR v raster out true).expr dn =
      ((v.absCalFactor : ℝ) * dn) / (v.effectiveBandwidth : ℝ) ∧
    (CalculateTOAR ⟨0.01, 0, 1, 1559.4555, 50⟩ raster out true).expr 1000 = 0.2 := by
  constructor
  · simp [CalculateTOAR]
  · simp [CalculateTOAR]
    norm_num

/-- C5: with solar zenith 0 degrees and Earth-Sun distance 1 AU, the
reflectance-mode expression equals the radiance-mode expression multiplied by
pi and divided by the solar irradiance, exactly, for every calibration
factor, bandwidth, irradiance and pixel value. -/
theorem c5_reflectance_radiance_relation (absCal efb eSun : ℚ)
    (raster out : String) (dn : ℝ) :
    (CalculateTOAR ⟨absCal, 0, 1, eSun, efb⟩ raster out false).expr dn =
      (CalculateTOAR ⟨absCal, 0, 1, eSun, efb⟩ raster out true).expr dn *
        Real.pi / (eSun : ℝ) := by
  simp [CalculateTOAR, mapcalcCos, radians]

/-- C6: evaluation of the output-naming code at prefix toa and band NIR1:
with the numeric flag set the code produces toa.BAND_N, and with it unset the
code produces toa.7 (the opposite of the flag's own description, which says
the flag selects band numbers instead of letters). -/
theorem c6_output_naming_eval :
    outputName "toa" "NIR1" true = some "toa.BAND_N" ∧
    outputName "toa" "NIR1" false = some "toa.7" := by
  constructor <;> rfl

/-- C7: the name referenced at the extraction call site (line 202) is bound
to no table in the local environment of main, while the single
band-to-band-code mapping is bound under the name band_lookup; so the lookup
used to build the calibration key fails with an undefined-name error. -/
theorem c7_band_table_name_eval :
    mainTableNames.lookup extractionCallTableName = none ∧
    mainTableNames.lookup "band_lookup" = some band_lookup := by
  constructor <;> rfl

/-- C9 (amended): for every metadata document that cannot be parsed as
well-formed markup, the parse failure escapes the extraction routine as an
uncaught error (the document parse happens before the handler's scope
begins); no calibration record is returned and no output raster transform is
issued. -/
theorem c9_parse_failure_uncaught (band raster out : String) (radiance : Bool) :
    ExtractVariablesFromMetadata XmlParse.malformed band =
      ExtractResult.uncaughtFail FailKind.parseError ∧
    pipeline XmlParse.malformed band raster out radiance = none :=
  ⟨rfl, rfl⟩

/-- C9 counterexample: on a malformed document the extraction outcome is not
the handled parse failure the claim states; the error is raised outside the
handler and escapes unhandled. -/
theorem c9_counterexample :
    ExtractVariablesFromMetadata XmlParse.malformed "BAND_R" ≠
      ExtractResult.handledFail FailKind.parseError := by
  simp [ExtractVariablesFromMetadata]

/-- C1: in reflectance mode, for every calibration record produced by the
extractor and every pixel value DN, the per-pixel expression equals
`((absoluteCalibrationFactor * DN) / effectiveBandwidth) *
earthSunDistanceAU^2 * pi / (solarIrradiance * cos(radians(solarZenithDeg)))`
with solarZenithDeg equal to 90 minus the mean sun elevation read from the
metadata; and with the radiance part equal to 0.2, distance 1 AU, irradiance
1559.4555 and zenith 30 degrees the result equals
`0.2 * 1.0 * pi / (1559.4555 * cos(radians 30))`. -/
theorem c1_reflectance_expression (ns : List (String × Option ℚ))
    (acq : Option (Option Timestamp)) (band raster out : String)
    (absCal efb sunEl eSun : ℚ) (ts : Timestamp) (dn : ℝ)
    (ha : findText ns ("IMD/" ++ band ++ "/ABSCALFACTOR") = some absCal)
    (he : findText ns ("IMD/" ++ band ++ "/EFFECTIVEBANDWIDTH") = some efb)
    (hs : findText ns "IMD/IMAGE/MEANSUNEL" = some sunEl)
    (hq : acq = some (some ts))
    (hb : SSI.lookup band = some eSun) :
    ExtractVariablesFromMetadata (XmlParse.tree ns acq) band =
      ExtractResult.ok ⟨absCal, 90 - sunEl, EarthSunDistance ts, eSun, efb⟩ ∧
    (CalculateTOAR ⟨absCal, 90 - sunEl, EarthSunDistance ts, eSun, efb⟩
        raster out false).expr dn =
      (((absCal : ℝ) * dn) / (efb : ℝ)) * EarthSunDistance ts ^ 2 * Real.pi /
        ((eSun : ℝ) * Real.cos (radians ((90 : ℝ) - (sunEl : ℝ)))) ∧
    (CalculateTOAR ⟨0.01, 30, 1, 1559.4555, 50⟩ raster out false).expr 1000 =
      0.2 * 1.0 * Real.pi / ((1559.4555 : ℝ) * Real.cos (radians 30)) := by
  refine ⟨?_, ?_, ?_⟩
  · simp [ExtractVariablesFromMetadata, ha, he, hs, hq, hb]
  · simp [CalculateTOAR, mapcalcCos]
  · simp [CalculateTOAR, mapcalcCos]
    norm_num

/-- Witness for C1: a concrete metadata tree with all four required fields
present for band BAND_R. -/
theorem c1_reflectance_expression_witness :
    (findText [("IMD/BAND_R/ABSCALFACTOR", some 0.01),
        ("IMD/BAND_R/EFFECTIVEBANDWIDTH", some 50),
        ("IMD/IMAGE/MEANSUNEL", some 60)]
        ("IMD/" ++ "BAND_R" ++ "/ABSCALFACTOR") = some 0.01) ∧
    (ExtractVariablesFromMetadata
        (XmlParse.tree
          [("IMD/BAND_R/ABSCALFACTOR", some 0.01),
           ("IMD/BAND_R/EFFECTIVEBANDWIDTH", some 50),
           ("IMD/IMAGE/MEANSUNEL", some 60)]
          (some (some ⟨2013, 7, 12, 16, 0, 0, 0⟩))) "BAND_R" =
      ExtractResult.ok
        ⟨0.01, 90 - 60, EarthSunDistance ⟨2013, 7, 12, 16, 0, 0, 0⟩,
          1559.4555, 50⟩ ∧
    (CalculateTOAR
        ⟨0.01, 90 - 60, EarthSunDistance ⟨2013, 7, 12, 16, 0, 0, 0⟩,
          1559.4555, 50⟩ "wv2red" "toa.5" false).expr 500 =
      (((0.01 : ℚ) : ℝ) * 500 / ((50 : ℚ) : ℝ)) *
        EarthSunDistance ⟨2013, 7, 12, 16, 0, 0, 0⟩ ^ 2 * Real.pi /
        (((1559.4555 : ℚ) : ℝ) *
          Real.cos (radians ((90 : ℝ) - ((60 : ℚ) : ℝ)))) ∧
    (CalculateTOAR ⟨0.01, 30, 1, 1559.4555, 50⟩ "wv2red" "toa.5" false).expr 1000 =
      0.2 * 1.0 * Real.pi / ((1559.4555 : ℝ) * Real.cos (radians 30))) :=
  ⟨rfl, c1_reflectance_expression _ _ "BAND_R" "wv2red" "toa.5" 0.01 50 60
    1559.4555 ⟨2013, 7, 12, 16, 0, 0, 0⟩ 500 rfl rfl rfl rfl rfl⟩

/-- C8: if any required metadata field is absent (node missing or text
unusable) the extraction ends in the handled missing-field failure, no
partial calibration record is returned, and the pipeline issues no output
raster transform. -/
theorem c8_missing_field (ns : List (String × Option ℚ))
    (acq : Option (Option Timestamp)) (band raster out : String)
    (radiance : Bool)
    (h : findText ns ("IMD/" ++ band ++ "/ABSCALFACTOR") = none ∨
         findText ns ("IMD/" ++ band ++ "/EFFECTIVEBANDWIDTH") = none ∨
         findText ns "IMD/IMAGE/MEANSUNEL" = none ∨ acq = none) :
    ExtractVariablesFromMetadata (XmlParse.tree ns acq) band =
      ExtractResult.handledFail FailKind.fieldMissing ∧
    pipeline (XmlParse.tree ns acq) band raster out radiance = none := by
  have hx : ExtractVariablesFromMetadata (XmlParse.tree ns acq) band =
      ExtractResult.handledFail FailKind.fieldMissing := by
    rcases h with h | h | h | h
    · simp [ExtractVariablesFromMetadata, h]
    · cases ha : findText ns ("IMD/" ++ band ++ "/ABSCALFACTOR") <;>
        simp [ExtractVariablesFromMetadata, ha, h]
    · cases ha : findText ns ("IMD/" ++ band ++ "/ABSCALFACTOR") <;>
        cases he : findText ns ("IMD/" ++ band ++ "/EFFECTIVEBANDWIDTH") <;>
        simp [ExtractVariablesFromMetadata, ha, he, h]
    · cases ha : findText ns ("IMD/" ++ band ++ "/ABSCALFACTOR") <;>
        cases he : findText ns ("IMD/" ++ band ++ "/EFFECTIVEBANDWIDTH") <;>
        cases hs : findText ns "IMD/IMAGE/MEANSUNEL" <;>
        simp [ExtractVariablesFromMetadata, ha, he, hs, h]
  exact ⟨hx, by simp [pipeline, hx]⟩

/-- Witness for C8: a tree whose BAND_R node lacks the ABSCALFACTOR child. -/
theorem c8_missing_field_witness :
    (findText [("IMD/BAND_R/EFFECTIVEBANDWIDTH", some 50)]
        ("IMD/" ++ "BAND_R" ++ "/ABSCALFACTOR") = none ∨
      findText [("IMD/BAND_R/EFFECTIVEBANDWIDTH", some 50)]
        ("IMD/" ++ "BAND_R" ++ "/EFFECTIVEBANDWIDTH") = none ∨
      findText [("IMD/BAND_R/EFFECTIVEBANDWIDTH", some 50)]
        "IMD/IMAGE/MEANSUNEL" = none ∨
      (some (some (⟨2013, 7, 12, 16, 0, 0, 0⟩ : Timestamp)) :
        Option (Option Timestamp)) = none) ∧
    (ExtractVariablesFromMetadata
        (XmlParse.tree [("IMD/BAND_R/EFFECTIVEBANDWIDTH", some 50)]
          (some (some ⟨2013, 7, 12, 16, 0, 0, 0⟩))) "BAND_R" =
      ExtractResult.handledFail FailKind.fieldMissing ∧
    pipeline
        (XmlParse.tree [("IMD/BAND_R/EFFECTIVEBANDWIDTH", some 50)]
          (some (some ⟨2013, 7, 12, 16, 0, 0, 0⟩))) "BAND_R" "wv2red" "toa.5"
        false = none) :=
  ⟨Or.inl rfl,
    c8_missing_field [("IMD/BAND_R/EFFECTIVEBANDWIDTH", some 50)]
      (some (some ⟨2013, 7, 12, 16, 0, 0, 0⟩)) "BAND_R" "wv2red" "toa.5" false
      (Or.inl rfl)⟩

/-- C3 (amended): for every syntactically valid timestamp the function is
total and computes the fractional hour, the Julian day and the returned
distance exactly as the spec formulas state them, where year and month
denote the values after the January/February substitution (month+12 of the
previous year when the month is 1 or 2) and the two truncating terms agree
with the floor because their arguments are non-negative. -/
theorem c3_julian_algorithm (t : Timestamp) (h : ValidTimestamp t) :
    UT t = UTspec t ∧ JD t = JDspec t ∧
    EarthSunDistance t = EarthSunDistanceSpec t := by
  obtain ⟨hy, hm, -, -, -, -, -, -⟩ := h
  have hay : (0 : ℚ) ≤ (adjYear t : ℚ) := by exact_mod_cast adjYear_nonneg t hy
  have ham : (1 : ℚ) ≤ (adjMonth t : ℚ) := by exact_mod_cast adjMonth_pos t hm
  have hA : A t = Aspec t := by
    rw [A, Aspec, pyInt_eq_floor _ (div_nonneg hay (by norm_num))]
  have hAnn : (0 : ℚ) ≤ (Aspec t : ℚ) := by
    have hz : (0 : ℤ) ≤ Aspec t :=
      Int.floor_nonneg.mpr (div_nonneg hay (by norm_num))
    exact_mod_cast hz
  have hB : B t = Bspec t := by
    rw [B, Bspec, hA, pyInt_eq_floor _ (div_nonneg hAnn (by norm_num))]
  have h1 : pyInt ((365.25 : ℚ) * ((adjYear t : ℚ) + 4716)) =
      ⌊(365.25 : ℚ) * ((adjYear t : ℚ) + 4716)⌋ :=
    pyInt_eq_floor _ (by nlinarith)
  have h2 : pyInt ((30.6001 : ℚ) * ((adjMonth t : ℚ) + 1)) =
      ⌊(30.6001 : ℚ) * ((adjMonth t : ℚ) + 1)⌋ :=
    pyInt_eq_floor _ (by nlinarith)
  have hUT : UT t = UTspec t := rfl
  have hJD : JD t = JDspec t := by rw [JD, JDspec, h1, h2, hB, hUT]
  refine ⟨hUT, hJD, ?_⟩
  unfold EarthSunDistance EarthSunDistanceSpec g gSpec D
  rw [hJD]

/-- Witness for C3 at the acquisition time 2013-07-12T16:00:00.000000Z. -/
theorem c3_julian_algorithm_witness :
    ValidTimestamp ⟨2013, 7, 12, 16, 0, 0, 0⟩ ∧
    (UT ⟨2013, 7, 12, 16, 0, 0, 0⟩ = UTspec ⟨2013, 7, 12, 16, 0, 0, 0⟩ ∧
     JD ⟨2013, 7, 12, 16, 0, 0, 0⟩ = JDspec ⟨2013, 7, 12, 16, 0, 0, 0⟩ ∧
     EarthSunDistance ⟨2013, 7, 12, 16, 0, 0, 0⟩ =
       EarthSunDistanceSpec ⟨2013, 7, 12, 16, 0, 0, 0⟩) :=
  ⟨by decide, c3_julian_algorithm ⟨2013, 7, 12, 16, 0, 0, 0⟩ (by decide)⟩

/-- C3 counterexample: at the January timestamp 2013-01-15T00:00:00.000000Z
the code's Julian day (2456307.5, computed with month 13 of year 2012) is not
the value of the claim's formula taken with the timestamp's own year and
month (2456305.5), so the claim as stated fails. -/
theorem c3_counterexample :
    ¬ (JD ⟨2013, 1, 15, 0, 0, 0, 0⟩ = JDclaimC3 ⟨2013, 1, 15, 0, 0, 0, 0⟩ ∧
       EarthSunDistance ⟨2013, 1, 15, 0, 0, 0, 0⟩ =
         EarthSunDistanceClaimC3 ⟨2013, 1, 15, 0, 0, 0, 0⟩) := by
  intro hc
  have hJD := hc.1
  norm_num [JD, JDclaimC3, pyInt, UT, UTspec, secondsMicro, adjYear,
    adjMonth, A, B] at hJD

/-- C4 (amended): for January and February timestamps the date is treated as
month+12 of the previous year by every later step that reads the year or the
month: the A computation and both truncating Julian-day terms use the
substituted values, while the fractional hour is built from the time-of-day
fields only. -/
theorem c4_jan_feb_adjustment (t : Timestamp)
    (h : t.month = 1 ∨ t.month = 2) :
    A t = pyInt (((t.year : ℚ) - 1) / 100) ∧
    JD t =
      (pyInt ((365.25 : ℚ) * (((t.year : ℚ) - 1) + 4716)) : ℚ) +
        (pyInt ((30.6001 : ℚ) * (((t.month : ℚ) + 12) + 1)) : ℚ) +
        (t.day : ℚ) + UT t / 24 + (B t : ℚ) - 1524.5 ∧
    UT t = UTspec t := by
  have hy : adjYear t = t.year - 1 := by rw [adjYear, if_pos h]
  have hm : adjMonth t = t.month + 12 := by rw [adjMonth, if_pos h]
  refine ⟨?_, ?_, rfl⟩
  · rw [A, hy]
    push_cast
    rfl
  · rw [JD, hy, hm]
    push_cast
    rfl

/-- Witness for C4 at the January timestamp 2015-01-20T06:30:00.000000Z. -/
theorem c4_jan_feb_adjustment_witness :
    ((⟨2015, 1, 20, 6, 30, 0, 0⟩ : Timestamp).month = 1 ∨
      (⟨2015, 1, 20, 6, 30, 0, 0⟩ : Timestamp).month = 2) ∧
    (A ⟨2015, 1, 20, 6, 30, 0, 0⟩ =
        pyInt ((((⟨2015, 1, 20, 6, 30, 0, 0⟩ : Timestamp).year : ℚ) - 1) / 100) ∧
     JD ⟨2015, 1, 20, 6, 30, 0, 0⟩ =
        (pyInt ((365.25 : ℚ) *
            ((((⟨2015, 1, 20, 6, 30, 0, 0⟩ : Timestamp).year : ℚ) - 1) + 4716)) : ℚ) +
          (pyInt ((30.6001 : ℚ) *
            ((((⟨2015, 1, 20, 6, 30, 0, 0⟩ : Timestamp).month : ℚ) + 12) + 1)) : ℚ) +
          ((⟨2015, 1, 20, 6, 30, 0, 0⟩ : Timestamp).day : ℚ) +
          UT ⟨2015, 1, 20, 6, 30, 0, 0⟩ / 24 +
          (B ⟨2015, 1, 20, 6, 30, 0, 0⟩ : ℚ) - 1524.5 ∧
     UT ⟨2015, 1, 20, 6, 30, 0, 0⟩ = UTspec ⟨2015, 1, 20, 6, 30, 0, 0⟩) :=
  ⟨Or.inl rfl, c4_jan_feb_adjustment ⟨2015, 1, 20, 6, 30, 0, 0⟩ (Or.inl rfl)⟩

/-- C4 counterexample: at the February timestamp 2014-02-10T00:00:00.000000Z
the code's Julian day (2456698.5) differs from the claim's reading in which
only steps 2-3 use the substituted date and the Julian-day truncating terms
use the original year and month (2456695.5). -/
theorem c4_counterexample :
    JD ⟨2014, 2, 10, 0, 0, 0, 0⟩ ≠ JDclaimC4 ⟨2014, 2, 10, 0, 0, 0, 0⟩ := by
  norm_num [JD, JDclaimC4, pyInt, UT, UTspec, secondsMicro, adjYear,
    adjMonth, A, B]

/-- C10: for the acquisition time 2013-07-12T16:00:00.000000Z the computed
Earth-Sun distance lies in the closed interval [0.983, 1.017] astronomical
units. -/
theorem c10_distance_range :
    (0.983 : ℝ) ≤ EarthSunDistance ⟨2013, 7, 12, 16, 0, 0, 0⟩ ∧
    EarthSunDistance ⟨2013, 7, 12, 16, 0, 0, 0⟩ ≤ 1.017 := by
  have h1 := Real.neg_one_le_cos (g ⟨2013, 7, 12, 16, 0, 0, 0⟩)
  have h2 := Real.cos_le_one (g ⟨2013, 7, 12, 16, 0, 0, 0⟩)
  have h3 := Real.neg_one_le_cos (2 * g ⟨2013, 7, 12, 16, 0, 0, 0⟩)
  have h4 := Real.cos_le_one (2 * g ⟨2013, 7, 12, 16, 0, 0, 0⟩)
  unfold EarthSunDistance
  constructor <;> nlinarith

end WV2
